import Mathlib

/-!
Verification of the rate-limiting / authentication gating core of the
`rragundez/backend` repository, shallowly embedded from
`src/app/api/dependencies.py` and `src/app/core/health.py`.

External collaborators that the gate calls into (token verifier, CRUD
point lookups, counter store, path sanitizer) are not part of the
repository snapshot; they are modelled from the specification where a
claim depends on their behaviour and otherwise kept as abstract
parameters.
-/

namespace Backend

/-- The payload returned by a successful token verification
(`verify_token` in `app/core/security`): the token names a user by a
primary identifier, an email-like string or a username. -/
structure TokenData where
  username_or_email : String
deriving DecidableEq, Repr

/-- A user record as returned by `crud_users.get` (the fields the gating
core reads: `id`, `tier_id`, `is_superuser`, plus the lookup columns
`username`, `email`, `api_key`, `is_deleted`). -/
structure User where
  id : Nat
  username : String
  email : String
  api_key : Option String
  tier_id : Option Nat
  is_superuser : Bool
  is_deleted : Bool
deriving DecidableEq, Repr

/-- A tier record (`TierRead`): `{id, name}`. -/
structure Tier where
  id : Nat
  name : String
deriving DecidableEq, Repr

/-- A rate-limit rule (`RateLimitRead`): a quota override scoped to one
tier and one sanitized path. -/
structure RateLimitRule where
  tier_id : Nat
  path : String
  limit : Nat
  period : Nat
deriving DecidableEq, Repr

/-- The error taxonomy of the gate: `UnauthorizedException` (401),
`ForbiddenException` (403), `RateLimitException` (429), each carrying
its detail message. All are `HTTPException`s in the source. -/
inductive AuthError where
  | Unauthorized (detail : String)
  | Forbidden (detail : String)
  | RateLimited (detail : String)
deriving DecidableEq, Repr

/-- Database contents visible to the gating core: users, tiers and
rate-limit rules. -/
structure Db where
  users : List User
  tiers : List Tier
  rules : List RateLimitRule

/-- Modelled from the spec: `crud_users.get(db, email=..., is_deleted=False)`
(`crud_users` is not under `src/`) — a point lookup by exact-match email
excluding soft-deleted records, returning at most one record or none. -/
def crud_users_get_by_email (db : Db) (email : String) : Option User :=
  db.users.find? (fun u => u.email == email && !u.is_deleted)

/-- Modelled from the spec: `crud_users.get(db, username=..., is_deleted=False)`
— exact-match username lookup excluding soft-deleted records. -/
def crud_users_get_by_username (db : Db) (username : String) : Option User :=
  db.users.find? (fun u => u.username == username && !u.is_deleted)

/-- Modelled from the spec: `crud_users.get(db, api_key=..., is_deleted=False)`
— exact match against a stored per-user key, excluding soft-deleted
records. -/
def crud_users_get_by_api_key (db : Db) (key : String) : Option User :=
  db.users.find? (fun u => u.api_key == some key && !u.is_deleted)

/-- Modelled from the spec: `crud_tiers.get(db, id=...)` (`crud_tiers` is
not under `src/`) — point lookup of a tier by id; a `None` id (user with
no assigned tier) matches nothing. -/
def crud_tiers_get (db : Db) (id : Option Nat) : Option Tier :=
  match id with
  | none => none
  | some i => db.tiers.find? (fun t => t.id == i)

/-- Modelled from the spec: `crud_rate_limits.get(db, tier_id=..., path=...)`
(`crud_rate_limits` is not under `src/`) — point lookup of the rule for
`(tier_id, path)`. -/
def crud_rate_limits_get (db : Db) (tier_id : Nat) (path : String) : Option RateLimitRule :=
  db.rules.find? (fun r => r.tier_id == tier_id && r.path == path)

/-- A token verifier: `verify_token(token, TokenType.ACCESS, db)` is an
external collaborator (not under `src/`), kept abstract as a pure
function from the token string to an optional `TokenData`. -/
def Verifier : Type := String → Option TokenData

/-- The user lookup performed by `get_current_user` after verification:
by email when the token identifier contains `"@"`, by username
otherwise (lines 31–34 of `dependencies.py`). -/
def user_from_token (db : Db) (td : TokenData) : Option User :=
  if td.username_or_email.data.contains '@' then
    crud_users_get_by_email db td.username_or_email
  else
    crud_users_get_by_username db td.username_or_email

/-- `get_current_user` (dependencies.py lines 24–42): verify the token;
on failure raise `UnauthorizedException("User not authenticated.")`;
otherwise look up the named user (email vs username dispatch, excluding
soft-deleted) and return it, raising the same exception when absent. -/
def get_current_user (db : Db) (verify : Verifier) (token : String) : Except AuthError User :=
  match verify token with
  | none => Except.error (AuthError.Unauthorized "User not authenticated.")
  | some td =>
    match user_from_token db td with
    | some u => Except.ok u
    | none => Except.error (AuthError.Unauthorized "User not authenticated.")

/-- Python truthiness of an optional string (`if token:` / `if api_key:`):
false for `None` and for the empty string. -/
def truthy (s : Option String) : Bool :=
  match s with
  | none => false
  | some v => !v.isEmpty

/-- `str.lower()` on the ASCII header tokens the source compares with. -/
def lowerString (s : String) : String :=
  String.mk (s.data.map Char.toLower)

/-- `str.partition(" ")` restricted to the two components the source
uses: the part before the first space and the part after it (empty when
no space occurs). -/
def partitionSpace (s : String) : String × String :=
  if s.data.contains ' ' then
    (String.mk (s.data.takeWhile (fun c => c != ' ')),
     String.mk ((s.data.dropWhile (fun c => c != ' ')).drop 1))
  else (s, "")

/-- `get_optional_user` (dependencies.py lines 45–68): read the
`Authorization` header; on a missing/empty header, a scheme other than
case-insensitive `bearer`, an empty token value, failed verification, or
any exception from the user lookup, return `None`; otherwise return the
resolved user. -/
def get_optional_user (db : Db) (verify : Verifier) (authHeader : Option String) : Option User :=
  match authHeader with
  | none => none
  | some header =>
    if header.isEmpty then none
    else
      let parts := partitionSpace header
      if lowerString parts.1 != "bearer" || parts.2.isEmpty then none
      else
        match verify parts.2 with
        | none => none
        | some _ =>
          match get_current_user db verify parts.2 with
          | Except.ok u => some u
          | Except.error _ => none

/-- `get_current_superuser` (dependencies.py lines 71–75): raise
`ForbiddenException` when the authenticated user's `is_superuser` flag
is false, otherwise return the record unchanged. -/
def get_current_superuser (current_user : User) : Except AuthError User :=
  if !current_user.is_superuser then
    Except.error (AuthError.Forbidden "You do not have enough privileges.")
  else
    Except.ok current_user

/-- `get_api_key_user` (dependencies.py lines 78–90): raise when the key
header is absent or empty, otherwise look the key up (excluding
soft-deleted users) and raise `"Invalid API key."` on no match. -/
def get_api_key_user (db : Db) (api_key : Option String) : Except AuthError User :=
  if !truthy api_key then
    Except.error (AuthError.Unauthorized "API key required.")
  else
    match api_key with
    | none => Except.error (AuthError.Unauthorized "API key required.")
    | some k =>
      match crud_users_get_by_api_key db k with
      | some u => Except.ok u
      | none => Except.error (AuthError.Unauthorized "Invalid API key.")

/-- `get_authenticated_user` (dependencies.py lines 93–107): try the JWT
token first, swallowing any `HTTPException`; fall back to the API key
when present; otherwise raise `"Authentication required."`. -/
def get_authenticated_user (db : Db) (verify : Verifier)
    (token : Option String) (api_key : Option String) : Except AuthError User :=
  let fallback : Except AuthError User :=
    if truthy api_key then get_api_key_user db api_key
    else Except.error (AuthError.Unauthorized "Authentication required.")
  if truthy token then
    match token with
    | none => fallback
    | some t =>
      match get_current_user db verify t with
      | Except.ok u => Except.ok u
      | Except.error _ => fallback
  else fallback

/-- Process-wide default quota configuration
(`settings.DEFAULT_RATE_LIMIT_LIMIT` / `settings.DEFAULT_RATE_LIMIT_PERIOD`,
bound to `DEFAULT_LIMIT` / `DEFAULT_PERIOD` in dependencies.py). -/
structure Settings where
  DEFAULT_RATE_LIMIT_LIMIT : Nat
  DEFAULT_RATE_LIMIT_PERIOD : Nat

/-- The rate-gate identity key passed as `user_id` to
`is_rate_limited`: an authenticated user's integer id, or a client
address string for anonymous callers (dependencies.py lines 118, 136). -/
inductive IdKey where
  | uid (n : Nat)
  | addr (host : String)
deriving DecidableEq, Repr

/-- Modelled from the spec: the Counter Store (the Redis-backed
`rate_limiter` in `app/core/utils/rate_limit` is not under `src/`) — a
shared key-value ledger keyed by `(identity_key, sanitized_path)`
supporting atomic increment, holding the count of the current fixed
window. -/
structure CounterStore where
  counts : IdKey × String → Nat

/-- Modelled from the spec: the store's atomic increment-and-get — a
single linearizable operation returning the post-increment count. -/
def CounterStore.incr (s : CounterStore) (key : IdKey × String) : Nat × CounterStore :=
  let c := s.counts key + 1
  (c, ⟨fun k => if k = key then c else s.counts k⟩)

/-- Modelled from the spec: `rate_limiter.is_rate_limited(db, user_id,
path, limit, period)` — atomically increment the counter for
`(user_id, path)` (setting its expiry to `period` when the window is
fresh, which the expiry-free window model elides) and report
rate-limited exactly when the post-increment count exceeds `limit`. -/
def is_rate_limited (s : CounterStore) (user_id : IdKey) (path : String)
    (limit : Nat) (period : Nat) : Bool × CounterStore :=
  let r := s.incr (user_id, path)
  (decide (limit < r.1), r.2)

/-- The quota resolved by `rate_limiter_dependency` (lines 117–137): for
an authenticated user, the tier's rule for the sanitized path when both
exist, otherwise the system default; for an anonymous caller, always the
system default. -/
def resolved_quota (cfg : Settings) (db : Db) (user : Option User) (path : String) : Nat × Nat :=
  match user with
  | some u =>
    match crud_tiers_get db u.tier_id with
    | some tier =>
      match crud_rate_limits_get db tier.id path with
      | some rule => (rule.limit, rule.period)
      | none => (cfg.DEFAULT_RATE_LIMIT_LIMIT, cfg.DEFAULT_RATE_LIMIT_PERIOD)
    | none => (cfg.DEFAULT_RATE_LIMIT_LIMIT, cfg.DEFAULT_RATE_LIMIT_PERIOD)
  | none => (cfg.DEFAULT_RATE_LIMIT_LIMIT, cfg.DEFAULT_RATE_LIMIT_PERIOD)

/-- The identity key chosen by `rate_limiter_dependency` (lines 118,
136): the user's id when authenticated, else `request.client.host`, else
the fixed string `"unknown"`. -/
def identity_key (user : Option User) (client_host : Option String) : IdKey :=
  match user with
  | some u => IdKey.uid u.id
  | none =>
    match client_host with
    | some h => IdKey.addr h
    | none => IdKey.addr "unknown"

/-- The per-request inputs `rate_limiter_dependency` reads from the
`Request` object: `request.url.path` and `request.client.host` (the
latter absent when the client address is unavailable). -/
structure GateRequest where
  raw_path : String
  client_host : Option String

/-- `rate_limiter_dependency` (dependencies.py lines 110–141): sanitize
the path, resolve the identity key and quota, atomically increment the
counter and raise `RateLimitException("Rate limit exceeded.")` exactly
when the store reports the combination rate-limited. The path sanitizer
(`sanitize_path`, not under `src/`) is an abstract parameter. Returns
the gate outcome together with the updated store. -/
def rate_limiter_dependency (cfg : Settings) (db : Db) (sanitize : String → String)
    (store : CounterStore) (req : GateRequest) (user : Option User) :
    Except AuthError Unit × CounterStore :=
  let path := sanitize req.raw_path
  let q := resolved_quota cfg db user path
  let key := identity_key user req.client_host
  let r := is_rate_limited store key path q.1 q.2
  (if r.1 then Except.error (AuthError.RateLimited "Rate limit exceeded.") else Except.ok (),
   r.2)

/-- The outcome of one call into an external store collaborator: either
success with a value or a raised exception with its message. -/
inductive StoreResult (α : Type) where
  | ok (a : α)
  | exn (msg : String)
deriving DecidableEq, Repr

/-- `check_database_health` (core/health.py lines 11–18): execute
`SELECT 1` against the engine and return `True`; any exception is caught,
logged, and reported as `False`. The embedding takes the outcome of the
`conn.execute` collaborator call as a parameter; totality of the
function is the absence of exception propagation. -/
def check_database_health (execResult : StoreResult Unit) : Bool :=
  match execResult with
  | StoreResult.ok _ => true
  | StoreResult.exn _ => false

/-- `check_redis_health` (core/health.py lines 21–30): report `False`
when the Redis client is uninitialized (`cache.client is None`),
otherwise ping it and return `True`; any exception is caught, logged,
and reported as `False`. The embedding takes the optional client as the
outcome of its `ping()` call. -/
def check_redis_health (client : Option (StoreResult Unit)) : Bool :=
  match client with
  | none => false
  | some pingResult =>
    match pingResult with
    | StoreResult.ok _ => true
    | StoreResult.exn _ => false

/-- Modelled from the spec: `n` admission calls with the same
`(identity, path)` key and quota, serialized by the Counter Store's
linearizable atomic increment (spec section 5: every increment observes
and builds on the prior committed value, in some arbitrary order).
Returns the list of `is_rate_limited` verdicts alongside the final
store. Since the calls are indistinguishable, every interleaving
linearizes to this sequence. -/
def run_gate_calls (key : IdKey) (path : String) (limit : Nat) (period : Nat) :
    Nat → CounterStore → List Bool × CounterStore
  | 0, s => ([], s)
  | n + 1, s =>
    let r := is_rate_limited s key path limit period
    let rest := run_gate_calls key path limit period n r.2
    (r.1 :: rest.1, rest.2)

/-! ## Helper lemmas and concrete witness data -/

/-- Projection of the counter-store constructor. -/
@[simp]
theorem counts_mk (f : IdKey × String → Nat) : (CounterStore.mk f).counts = f := rfl

/-- Any user produced by the token-identifier lookup is not soft-deleted:
both branch lookups filter on `is_deleted=False`. -/
theorem user_from_token_not_deleted (db : Db) (td : TokenData) (u : User)
    (h : user_from_token db td = some u) : u.is_deleted = false := by
  unfold user_from_token crud_users_get_by_email crud_users_get_by_username at h
  split at h <;>
  · have hp := List.find?_some h
    simp only [Bool.and_eq_true, Bool.not_eq_true'] at hp
    exact hp.2

/-- Concrete user with a tier and an API key, used to instantiate the
theorems on small inputs. -/
def wAlice : User :=
  { id := 1, username := "alice", email := "alice@example.com", api_key := some "key-alice",
    tier_id := some 7, is_superuser := true, is_deleted := false }

/-- Concrete user with no assigned tier. -/
def wBob : User :=
  { id := 2, username := "bob", email := "bob@example.com", api_key := some "key-bob",
    tier_id := none, is_superuser := false, is_deleted := false }

/-- Concrete tier. -/
def wTier : Tier := { id := 7, name := "pro" }

/-- Concrete rate-limit rule for `wTier` on one path. -/
def wRule : RateLimitRule := { tier_id := 7, path := "/api/v1/items", limit := 3, period := 60 }

/-- Concrete database contents. -/
def wDb : Db := { users := [wAlice, wBob], tiers := [wTier], rules := [wRule] }

/-- Concrete token verifier: accepts exactly the token `"tok-alice"`,
naming the user `alice` by username. -/
def wVerify : Verifier := fun t => if t = "tok-alice" then some ⟨"alice"⟩ else none

/-- Concrete default-quota configuration. -/
def wCfg : Settings := { DEFAULT_RATE_LIMIT_LIMIT := 10, DEFAULT_RATE_LIMIT_PERIOD := 120 }

/-! ## Claims -/

/-- C4: `get_current_user` resolves a verified token to the user it
names — looked up by email when the token's identifier contains `"@"`
and by username otherwise (that dispatch is `user_from_token`), always
excluding soft-deleted users — and raises `Unauthenticated` exactly when
token verification fails or the named user is absent or soft-deleted. -/
theorem c4_get_current_user_resolution (db : Db) (verify : Verifier) (token : String) :
    (∀ u : User, get_current_user db verify token = Except.ok u ↔
        ∃ td, verify token = some td ∧ user_from_token db td = some u ∧ u.is_deleted = false)
    ∧ (get_current_user db verify token
          = Except.error (AuthError.Unauthorized "User not authenticated.") ↔
        verify token = none ∨ ∃ td, verify token = some td ∧ user_from_token db td = none) := by
  unfold get_current_user
  cases hv : verify token with
  | none => simp
  | some td =>
    cases hu : user_from_token db td with
    | none => simp [hu]
    | some u0 =>
      have hnd := user_from_token_not_deleted db td u0 hu
      simp only [hu]
      constructor
      · intro u
        constructor
        · intro h
          injection h with h
          exact ⟨td, rfl, h ▸ hu, h ▸ hnd⟩
        · rintro ⟨td2, htd2, hu2, -⟩
          injection htd2 with h2
          subst h2
          rw [hu] at hu2
          injection hu2 with h3
          rw [h3]
      · constructor
        · intro h; cases h
        · rintro (h | ⟨td2, htd2, hu2⟩)
          · cases h
          · injection htd2 with h2
            subst h2
            rw [hu] at hu2
            cases hu2

/-- C4 witness: on the concrete database, the valid token resolves to
`wAlice` and a junk token raises the 401. -/
theorem c4_witness :
    get_current_user wDb wVerify "tok-alice" = Except.ok wAlice
    ∧ get_current_user wDb wVerify "junk"
        = Except.error (AuthError.Unauthorized "User not authenticated.") := by
  have h1 := c4_get_current_user_resolution wDb wVerify "tok-alice"
  have h2 := c4_get_current_user_resolution wDb wVerify "junk"
  exact ⟨(h1.1 wAlice).mpr ⟨⟨"alice"⟩, by decide, by decide, by decide⟩,
    h2.2.mpr (Or.inl (by decide))⟩

/-- C7: `get_current_superuser` raises `Forbidden` exactly when the
authenticated user's `is_superuser` flag is false, and otherwise returns
the authenticated user's record unchanged. -/
theorem c7_superuser_gate (u : User) :
    (get_current_superuser u
        = Except.error (AuthError.Forbidden "You do not have enough privileges.")
      ↔ u.is_superuser = false)
    ∧ (u.is_superuser = true → get_current_superuser u = Except.ok u) := by
  unfold get_current_superuser
  cases h : u.is_superuser <;> simp

/-- C7 witness: the non-superuser `wBob` is rejected with 403 and the
superuser `wAlice` passes through unchanged. -/
theorem c7_witness :
    get_current_superuser wBob
        = Except.error (AuthError.Forbidden "You do not have enough privileges.")
    ∧ get_current_superuser wAlice = Except.ok wAlice := by
  exact ⟨(c7_superuser_gate wBob).1.mpr (by decide), (c7_superuser_gate wAlice).2 (by decide)⟩

/-- C8: for every outcome of the underlying store operations,
`check_database_health` and `check_redis_health` return a boolean — true
on success, false on any exception or an uninitialized client — and
(being total functions of the collaborator outcome) never propagate an
exception to their caller. -/
theorem c8_health_checks_report_boolean (execResult : StoreResult Unit)
    (client : Option (StoreResult Unit)) :
    (check_database_health execResult = true ↔ execResult = StoreResult.ok ())
    ∧ (∀ msg, check_database_health (StoreResult.exn msg) = false)
    ∧ (check_redis_health client = true ↔ client = some (StoreResult.ok ()))
    ∧ check_redis_health none = false
    ∧ (∀ msg, check_redis_health (some (StoreResult.exn msg)) = false) := by
  refine ⟨?_, fun msg => rfl, ?_, rfl, fun msg => rfl⟩
  · cases execResult with
    | ok a => cases a; simp [check_database_health]
    | exn m => simp [check_database_health]
  · cases client with
    | none => simp [check_redis_health]
    | some r =>
      cases r with
      | ok a => cases a; simp [check_redis_health]
      | exn m => simp [check_redis_health]

/-- C8 witness: a failed `SELECT 1`, an uninitialized Redis client and a
failed ping all report `false`; successes report `true`. -/
theorem c8_witness :
    check_database_health (StoreResult.exn "connection refused") = false
    ∧ check_redis_health none = false
    ∧ check_redis_health (some (StoreResult.exn "timeout")) = false
    ∧ check_database_health (StoreResult.ok ()) = true := by
  have h := c8_health_checks_report_boolean (StoreResult.exn "connection refused") none
  exact ⟨h.2.1 "connection refused", h.2.2.2.1, h.2.2.2.2 "timeout",
    (c8_health_checks_report_boolean (StoreResult.ok ()) none).1.mpr rfl⟩

/-- C1: identity-resolution precedence. When the bearer token verifies
and names an existing user, that user is resolved (regardless of the
API key); when verification fails and the API key matches a stored key,
the API-key user is resolved; when both attempts fail or neither
credential is present, the auth-required context
(`get_authenticated_user`) raises `Unauthenticated` while the rate-gate
context (`get_optional_user`) resolves to the anonymous identity. -/
theorem c1_identity_resolution_precedence (db : Db) (verify : Verifier) (t k : String)
    (u v : User) (ht : t.isEmpty = false) (hk : k.isEmpty = false) :
    ((∃ td, verify t = some td ∧ user_from_token db td = some u) →
        get_authenticated_user db verify (some t) (some k) = Except.ok u)
    ∧ (verify t = none → crud_users_get_by_api_key db k = some v →
        get_authenticated_user db verify (some t) (some k) = Except.ok v)
    ∧ (verify t = none → crud_users_get_by_api_key db k = none →
        get_authenticated_user db verify (some t) (some k)
          = Except.error (AuthError.Unauthorized "Invalid API key."))
    ∧ get_authenticated_user db verify none none
        = Except.error (AuthError.Unauthorized "Authentication required.")
    ∧ get_optional_user db verify none = none
    ∧ (∀ ch : Option String, identity_key none ch = IdKey.addr (ch.getD "unknown")) := by
  refine ⟨?_, ?_, ?_, rfl, rfl, ?_⟩
  · rintro ⟨td, htd, hu⟩
    simp [get_authenticated_user, truthy, ht, get_current_user, htd, hu]
  · intro hv hk2
    simp [get_authenticated_user, truthy, ht, hk, get_current_user, hv, get_api_key_user, hk2]
  · intro hv hk2
    simp [get_authenticated_user, truthy, ht, hk, get_current_user, hv, get_api_key_user, hk2]
  · intro ch; cases ch <;> rfl

/-- C1 witness: on the concrete database, a valid token wins over a
valid API key; an invalid token falls back to the API-key user; both
failing, or no credentials, raise 401 while the gate context yields the
anonymous identity. -/
theorem c1_witness :
    get_authenticated_user wDb wVerify (some "tok-alice") (some "key-bob") = Except.ok wAlice
    ∧ get_authenticated_user wDb wVerify (some "expired") (some "key-bob") = Except.ok wBob
    ∧ get_authenticated_user wDb wVerify (some "expired") (some "wrong")
        = Except.error (AuthError.Unauthorized "Invalid API key.")
    ∧ get_authenticated_user wDb wVerify none none
        = Except.error (AuthError.Unauthorized "Authentication required.")
    ∧ get_optional_user wDb wVerify none = none := by
  have h1 := c1_identity_resolution_precedence wDb wVerify "tok-alice" "key-bob" wAlice wBob
    (by decide) (by decide)
  have h2 := c1_identity_resolution_precedence wDb wVerify "expired" "key-bob" wAlice wBob
    (by decide) (by decide)
  have h3 := c1_identity_resolution_precedence wDb wVerify "expired" "wrong" wAlice wBob
    (by decide) (by decide)
  exact ⟨h1.1 ⟨⟨"alice"⟩, by decide, by decide⟩,
    h2.2.1 (by decide) (by decide),
    h3.2.2.1 (by decide) (by decide),
    h1.2.2.2.1, h1.2.2.2.2.1⟩

/-- C2: for every authenticated user whose tier exists and for which a
rate-limit rule matches `(tier.id, sanitized path)`, the quota applied
by the rate-limiter dependency is exactly that rule's `(limit, period)`,
overriding the system default: the gate outcome compares the counter
against `rule.limit`. -/
theorem c2_tier_rule_quota_override (cfg : Settings) (db : Db) (sanitize : String → String)
    (store : CounterStore) (req : GateRequest) (u : User) (tier : Tier) (rule : RateLimitRule)
    (htier : crud_tiers_get db u.tier_id = some tier)
    (hrule : crud_rate_limits_get db tier.id (sanitize req.raw_path) = some rule) :
    resolved_quota cfg db (some u) (sanitize req.raw_path) = (rule.limit, rule.period)
    ∧ (rate_limiter_dependency cfg db sanitize store req (some u)).1
        = (if rule.limit < store.counts (IdKey.uid u.id, sanitize req.raw_path) + 1
            then Except.error (AuthError.RateLimited "Rate limit exceeded.")
            else Except.ok ()) := by
  have hq : resolved_quota cfg db (some u) (sanitize req.raw_path) = (rule.limit, rule.period) := by
    simp [resolved_quota, htier, hrule]
  refine ⟨hq, ?_⟩
  simp only [rate_limiter_dependency, hq, is_rate_limited, CounterStore.incr, identity_key]
  by_cases hlt : rule.limit < store.counts (IdKey.uid u.id, sanitize req.raw_path) + 1 <;>
    simp [hlt]

/-- C2 witness: `wAlice` (tier 7) on the path covered by `wRule` gets
quota `(3, 60)`, not the default `(10, 120)`. -/
theorem c2_witness :
    resolved_quota wCfg wDb (some wAlice) "/api/v1/items" = (3, 60)
    ∧ (rate_limiter_dependency wCfg wDb (fun p => p) ⟨fun _ => 0⟩
        ⟨"/api/v1/items", some "1.2.3.4"⟩ (some wAlice)).1 = Except.ok () := by
  have h := c2_tier_rule_quota_override wCfg wDb (fun p => p) ⟨fun _ => 0⟩
    ⟨"/api/v1/items", some "1.2.3.4"⟩ wAlice wTier wRule (by decide) (by decide)
  exact ⟨h.1, by rw [h.2]; rfl⟩

/-- C3: every caller without a tier-specific quota — an authenticated
user whose tier lookup yields nothing, a user whose tier has no matching
rule, and every anonymous caller — receives the system default quota,
regardless of path; for anonymous callers the result is independent of
the database and path entirely (no tier lookup is performed). -/
theorem c3_default_quota_fallback (cfg : Settings) (db db2 : Db) (u : User)
    (path path2 : String) :
    (crud_tiers_get db u.tier_id = none →
        resolved_quota cfg db (some u) path
          = (cfg.DEFAULT_RATE_LIMIT_LIMIT, cfg.DEFAULT_RATE_LIMIT_PERIOD))
    ∧ (∀ tier, crud_tiers_get db u.tier_id = some tier →
        crud_rate_limits_get db tier.id path = none →
        resolved_quota cfg db (some u) path
          = (cfg.DEFAULT_RATE_LIMIT_LIMIT, cfg.DEFAULT_RATE_LIMIT_PERIOD))
    ∧ resolved_quota cfg db none path
        = (cfg.DEFAULT_RATE_LIMIT_LIMIT, cfg.DEFAULT_RATE_LIMIT_PERIOD)
    ∧ resolved_quota cfg db none path = resolved_quota cfg db2 none path2 := by
  refine ⟨?_, ?_, rfl, rfl⟩
  · intro h; simp [resolved_quota, h]
  · intro tier h1 h2; simp [resolved_quota, h1, h2]

/-- C3 witness: the tierless `wBob`, `wAlice` on a path without a rule,
and an anonymous caller all get the default `(10, 120)`. -/
theorem c3_witness :
    resolved_quota wCfg wDb (some wBob) "/api/v1/items" = (10, 120)
    ∧ resolved_quota wCfg wDb (some wAlice) "/other" = (10, 120)
    ∧ resolved_quota wCfg wDb none "/api/v1/items" = (10, 120) := by
  have h1 := c3_default_quota_fallback wCfg wDb wDb wBob "/api/v1/items" "/other"
  have h2 := c3_default_quota_fallback wCfg wDb wDb wAlice "/other" "/api/v1/items"
  exact ⟨h1.1 (by decide), h2.2.1 wTier (by decide) (by decide), h1.2.2.1⟩

/-- C5: the rate gate raises `RateLimited` — an error distinct from the
authentication failures — exactly when `is_rate_limited` reports the
(identity key, sanitized path, limit, period) combination rate-limited,
which holds exactly when the post-increment count exceeds the resolved
limit; otherwise the request is admitted with no error. -/
theorem c5_rate_gate_rejects_iff_over_limit (cfg : Settings) (db : Db)
    (sanitize : String → String) (store : CounterStore) (req : GateRequest)
    (user : Option User) :
    ((rate_limiter_dependency cfg db sanitize store req user).1
        = Except.error (AuthError.RateLimited "Rate limit exceeded.") ↔
      (is_rate_limited store (identity_key user req.client_host) (sanitize req.raw_path)
          (resolved_quota cfg db user (sanitize req.raw_path)).1
          (resolved_quota cfg db user (sanitize req.raw_path)).2).1 = true)
    ∧ ((is_rate_limited store (identity_key user req.client_host) (sanitize req.raw_path)
          (resolved_quota cfg db user (sanitize req.raw_path)).1
          (resolved_quota cfg db user (sanitize req.raw_path)).2).1 = true ↔
        (resolved_quota cfg db user (sanitize req.raw_path)).1
          < store.counts (identity_key user req.client_host, sanitize req.raw_path) + 1)
    ∧ (¬ (resolved_quota cfg db user (sanitize req.raw_path)).1
          < store.counts (identity_key user req.client_host, sanitize req.raw_path) + 1 →
        (rate_limiter_dependency cfg db sanitize store req user).1 = Except.ok ())
    ∧ (∀ d, (rate_limiter_dependency cfg db sanitize store req user).1
          ≠ Except.error (AuthError.Unauthorized d))
    ∧ (∀ d, (rate_limiter_dependency cfg db sanitize store req user).1
          ≠ Except.error (AuthError.Forbidden d)) := by
  unfold rate_limiter_dependency is_rate_limited CounterStore.incr
  by_cases hlt : (resolved_quota cfg db user (sanitize req.raw_path)).1
      < store.counts (identity_key user req.client_host, sanitize req.raw_path) + 1 <;>
    simp [hlt]

/-- C5 witness: an anonymous caller with the default limit 10 is
rejected when the counter already holds 10 and admitted on a fresh
counter. -/
theorem c5_witness :
    (rate_limiter_dependency wCfg wDb (fun p => p) ⟨fun _ => 10⟩
        ⟨"/x", some "9.9.9.9"⟩ none).1
      = Except.error (AuthError.RateLimited "Rate limit exceeded.")
    ∧ (rate_limiter_dependency wCfg wDb (fun p => p) ⟨fun _ => 0⟩
        ⟨"/x", some "9.9.9.9"⟩ none).1 = Except.ok () := by
  have h1 := c5_rate_gate_rejects_iff_over_limit wCfg wDb (fun p => p) ⟨fun _ => 10⟩
    ⟨"/x", some "9.9.9.9"⟩ none
  have h2 := c5_rate_gate_rejects_iff_over_limit wCfg wDb (fun p => p) ⟨fun _ => 0⟩
    ⟨"/x", some "9.9.9.9"⟩ none
  exact ⟨h1.1.mpr (by decide), h2.2.2.1 (by decide)⟩

/-- C9: `get_optional_user` is total (its result is always `none` or
`some user`, never a propagated exception), and it yields a user exactly
when the `Authorization` header is present and non-empty with a
case-insensitive `bearer` scheme, a non-empty token value, a verifying
token, and a successful user lookup; on every failure it returns `none`
so the request proceeds as anonymous. -/
theorem c9_get_optional_user_total (db : Db) (verify : Verifier) (authHeader : Option String) :
    (get_optional_user db verify authHeader = none
      ∨ ∃ u, get_optional_user db verify authHeader = some u)
    ∧ (∀ u : User, get_optional_user db verify authHeader = some u ↔
        ∃ h, authHeader = some h ∧ h.isEmpty = false
          ∧ lowerString (partitionSpace h).1 = "bearer"
          ∧ (partitionSpace h).2.isEmpty = false
          ∧ (∃ td, verify (partitionSpace h).2 = some td)
          ∧ get_current_user db verify (partitionSpace h).2 = Except.ok u) := by
  constructor
  · cases hres : get_optional_user db verify authHeader
    · exact Or.inl rfl
    · exact Or.inr ⟨_, rfl⟩
  · intro u
    cases authHeader with
    | none => simp [get_optional_user]
    | some h =>
      by_cases he : h.isEmpty
      · simp [get_optional_user, he]
      · by_cases hb : lowerString (partitionSpace h).1 = "bearer"
        · by_cases hv2 : (partitionSpace h).2.isEmpty
          · simp [get_optional_user, he, hb, hv2]
          · cases hverify : verify (partitionSpace h).2 with
            | none => simp [get_optional_user, he, hb, hv2, hverify]
            | some td =>
              cases hcur : get_current_user db verify (partitionSpace h).2 with
              | ok u0 =>
                simp [get_optional_user, he, hb, hv2, hverify, hcur]
              | error e => simp [get_optional_user, he, hb, hv2, hverify, hcur]
        · simp [get_optional_user, he, hb]

/-- C9 witness: a well-formed bearer header resolves; a missing header,
a non-bearer scheme and an unverifiable token all fall back to `none`. -/
theorem c9_witness :
    get_optional_user wDb wVerify (some "Bearer tok-alice") = some wAlice
    ∧ get_optional_user wDb wVerify none = none
    ∧ get_optional_user wDb wVerify (some "Basic abc") = none
    ∧ get_optional_user wDb wVerify (some "Bearer junk") = none := by
  have h := c9_get_optional_user_total wDb wVerify (some "Bearer tok-alice")
  refine ⟨(h.2 wAlice).mpr ⟨"Bearer tok-alice", rfl, by decide, by decide, by decide,
      ⟨⟨"alice"⟩, by decide⟩, by rfl⟩, rfl, by decide, by decide⟩

/-- C10: for an anonymous request whose client network address is
unavailable, the rate-gate identity key is the fixed `"unknown"`
address, so all address-less anonymous callers share a single bucket per
sanitized path: two such requests for the same raw path produce
identical gate outcomes and counter updates. -/
theorem c10_addressless_anonymous_shared_bucket (cfg : Settings) (db : Db)
    (sanitize : String → String) (store : CounterStore) (req req2 : GateRequest)
    (h : req.client_host = none) (h2 : req2.client_host = none) :
    identity_key none req.client_host = IdKey.addr "unknown"
    ∧ identity_key none req.client_host = identity_key none req2.client_host
    ∧ (req.raw_path = req2.raw_path →
        rate_limiter_dependency cfg db sanitize store req none
          = rate_limiter_dependency cfg db sanitize store req2 none) := by
  refine ⟨by rw [h]; rfl, by rw [h, h2], ?_⟩
  intro hp
  simp only [rate_limiter_dependency, h, h2, hp]

/-- Accounting for `run_gate_calls`: starting from any store, the `n`
serialized calls observe the post-increment counts `c+1 .. c+n` (where
`c` is the starting count), so the number of admitted (non-limited)
verdicts is `min (limit - c) n`, the number rejected is
`n - (limit - c)`, and the final counter holds exactly `c + n` — no
increment is lost or double-counted. -/
theorem run_gate_calls_accounting (key : IdKey) (path : String) (limit period : Nat) :
    ∀ (n : Nat) (s : CounterStore),
      (run_gate_calls key path limit period n s).1.count false
          = min (limit - s.counts (key, path)) n
      ∧ (run_gate_calls key path limit period n s).1.count true
          = n - (limit - s.counts (key, path))
      ∧ (run_gate_calls key path limit period n s).2.counts (key, path)
          = s.counts (key, path) + n := by
  intro n
  induction n with
  | zero => intro s; simp [run_gate_calls]
  | succ n ih =>
    intro s
    have step : run_gate_calls key path limit period (n + 1) s
        = ((decide (limit < s.counts (key, path) + 1)) ::
            (run_gate_calls key path limit period n
              ⟨fun k => if k = (key, path) then s.counts (key, path) + 1 else s.counts k⟩).1,
           (run_gate_calls key path limit period n
              ⟨fun k => if k = (key, path) then s.counts (key, path) + 1 else s.counts k⟩).2) :=
      rfl
    obtain ⟨ha, hb, hc⟩ :=
      ih ⟨fun k => if k = (key, path) then s.counts (key, path) + 1 else s.counts k⟩
    simp at ha hb hc
    refine ⟨?_, ?_, ?_⟩
    · simp [step, List.count_cons, ha]
      by_cases hl : s.counts (key, path) + 1 ≤ limit <;> simp [hl] <;> omega
    · simp [step, List.count_cons, hb]
      by_cases hl : limit < s.counts (key, path) + 1 <;> simp [hl] <;> omega
    · simp [step, hc]; omega

/-- C6: `n` concurrent admission calls with the same (identity, path)
key under quota limit `limit ≤ n`, linearized by the store's atomic
increment into `run_gate_calls` starting from a fresh counter, yield
exactly `limit` admitted verdicts and `n - limit` rejected ones, and
leave the counter at exactly `n` — no lost or double-counted
increments. -/
theorem c6_concurrent_admissions_exact (key : IdKey) (path : String)
    (limit period n : Nat) (s : CounterStore)
    (hfresh : s.counts (key, path) = 0) (hln : limit ≤ n) :
    (run_gate_calls key path limit period n s).1.count false = limit
    ∧ (run_gate_calls key path limit period n s).1.count true = n - limit
    ∧ (run_gate_calls key path limit period n s).2.counts (key, path) = n := by
  obtain ⟨ha, hb, hc⟩ := run_gate_calls_accounting key path limit period n s
  rw [hfresh] at ha hb hc
  refine ⟨?_, ?_, ?_⟩
  · rw [ha]; omega
  · rw [hb]; omega
  · rw [hc]; omega

/-- C6 witness: five calls against limit 3 on a fresh counter — exactly
3 admitted, 2 rejected, final count 5. -/
theorem c6_witness :
    (run_gate_calls (IdKey.addr "203.0.113.5") "/items" 3 60 5 ⟨fun _ => 0⟩).1.count false = 3
    ∧ (run_gate_calls (IdKey.addr "203.0.113.5") "/items" 3 60 5 ⟨fun _ => 0⟩).1.count true = 2
    ∧ (run_gate_calls (IdKey.addr "203.0.113.5") "/items" 3 60 5
        ⟨fun _ => 0⟩).2.counts (IdKey.addr "203.0.113.5", "/items") = 5 := by
  exact c6_concurrent_admissions_exact (IdKey.addr "203.0.113.5") "/items" 3 60 5
    ⟨fun _ => 0⟩ rfl (by decide)

/-- C10 witness: two address-less anonymous requests for the same path
share the `"unknown"` key and the same gate behaviour. -/
theorem c10_witness :
    identity_key none (none : Option String) = IdKey.addr "unknown"
    ∧ rate_limiter_dependency wCfg wDb (fun p => p) ⟨fun _ => 0⟩ ⟨"/x", none⟩ none
        = rate_limiter_dependency wCfg wDb (fun p => p) ⟨fun _ => 0⟩ ⟨"/x", none⟩ none := by
  have h := c10_addressless_anonymous_shared_bucket wCfg wDb (fun p => p) ⟨fun _ => 0⟩
    ⟨"/x", none⟩ ⟨"/x", none⟩ rfl rfl
  exact ⟨h.1, h.2.2 rfl⟩

end Backend
